import Mathlib

/-!
Verification development for the DNS resolution core of a network
measurement probe.

The Go sources embedded here:
  internal/engine/internal/oonet/dns.go  (DNS codec, dual-query generic
    resolver, DNS-over-TCP/TLS resolver with redial-once policy)
  internal/netxlite resolver decorators  (IDNA, logging, literal-IP
    short circuit, error wrapping, chain construction via WrapResolver
    and NewResolverSystem)

Modelling conventions:
  errors           are an inductive Err mirroring the named error values
                   of the source, with an errExternal escape hatch for
                   opaque errors produced by collaborators;
  wire bytes       are List Nat;
  external library functions (miekg/dns Pack and Unpack, x/net idna,
    net.ParseIP, the error classifier of the errorsx package, network
    connections) are parameters of the embedded functions, so theorems
    quantify over all of their behaviours;
  machine integers use Nat with explicit mod 2 ^ 64 and mod 256 where the
                   Go code performs uint and byte conversions.
-/

/-- Errors. Each constructor mirrors a named error value of the source;
errExternal stands for any opaque error coming from a collaborator
(a failed miekg Unpack, an I/O error, an IDNA failure, ...).
errWrapped models the netxlite ErrWrapper with its classified failure
string, operation name and wrapped error, and errDNSOverTCPTLSRedial
models the redial-hint wrapper struct of dns.go. -/
inductive Err where
  | errDNSNoSuchHost
  | errDNSNoAnswerFromDNSServer
  | errDNSServerTemporarilyMisbehaving
  | errDNSServerMisbehaving
  | errDNSOverTCPTLSQueryTooLong
  | errDNSOverTCPTLSRedial (inner : Err)
  | errWrapped (failure : String) (operation : String) (inner : Err)
  | errNoResolver
  | errExternal (code : Nat)
deriving DecidableEq, Repr

/-- DNS rcode constant RcodeSuccess. -/
def rcodeSuccess : Nat := 0

/-- DNS rcode constant RcodeServerFailure. -/
def rcodeServerFailure : Nat := 2

/-- DNS rcode constant RcodeNameError. -/
def rcodeNameError : Nat := 3

/-- DNS query type constant TypeA. -/
def dnsTypeA : Nat := 1

/-- DNS query type constant TypeAAAA. -/
def dnsTypeAAAA : Nat := 28

/-- EDNS0 padding option code (RFC 7830). -/
def edns0PaddingCode : Nat := 12

/-- Answer resource record of a reply, as seen by the decoder: the Go
code type-asserts each answer to either a dns.A or a dns.AAAA record and
reads the textual rendering of the address; every other record type is
collapsed into the other constructor. -/
inductive DNSRR where
  | a (ip : String)
  | aaaa (ip : String)
  | other
deriving DecidableEq, Repr

/-- Parsed DNS reply, the part of a miekg dns.Msg the decoder inspects:
the response code and the answer section. -/
structure DNSMsg where
  rcode : Nat
  answer : List DNSRR
deriving DecidableEq, Repr

/-- Question section entry of a query message. -/
structure DNSQuestion where
  name : String
  qtype : Nat
  qclass : Nat
deriving DecidableEq, Repr

/-- EDNS0 option: option code plus payload bytes. -/
structure EDNS0Opt where
  code : Nat
  data : List Nat
deriving DecidableEq, Repr

/-- OPT pseudo resource record attached by SetEdns0: advertised maximum
UDP payload size, the DNSSEC OK bit, and the option list. -/
structure OptRR where
  udpSize : Nat
  dnssecOK : Bool
  options : List EDNS0Opt
deriving DecidableEq, Repr

/-- Query message built by EncodeLookupHostRequest before packing. -/
structure DNSQuery where
  id : Nat
  recursionDesired : Bool
  question : List DNSQuestion
  edns : Option OptRR
deriving DecidableEq, Repr

/-- Modelled from the miekg/dns library: dns.Fqdn appends a trailing dot
when the name does not already end with one. -/
def dnsFqdn (s : String) : String :=
  if s.endsWith "." then s else s ++ "."

/-- Modelled from the miekg/dns library: the uncompressed wire length of
a domain name (one length byte per label plus the root byte; for typical
names this is the string length plus one, and the bare root is one
byte). -/
def dnsNameWireLen (s : String) : Nat :=
  if s = "." then 1 else s.length + 1

/-- Modelled from the miekg/dns library: Msg.Len, the uncompressed wire
length of the message. Header is 12 bytes; each question is its encoded
name plus 4 bytes of type and class; the OPT pseudo record is 11 bytes
(root owner name, type, class, ttl, rdlength) plus 4 bytes of header and
the payload for each EDNS0 option. Pack produces exactly this many bytes
for the single-question uncompressed queries built here. -/
def dnsMsgLen (q : DNSQuery) : Nat :=
  12 + (q.question.map (fun qq => dnsNameWireLen qq.name + 4)).sum +
    (match q.edns with
     | none => 0
     | some o => 11 + (o.options.map (fun op => 4 + op.data.length)).sum)

/-- Message construction part of dnsMiekgCodec.EncodeLookupHostRequest
(dns.go lines 116 to 150): build a single-question recursion-desired
query; when padding is requested, attach an EDNS0 OPT record advertising
a 4096 byte response size with DNSSEC enabled, and append an EDNS0
padding option whose size is (128 - uint(query.Len()+4)) % 128 computed
in 64-bit unsigned arithmetic, so that the padded query length is a
multiple of 128. The random dns.Id() is passed in as qid. -/
def dnsMiekgCodec.mkLookupHostQuery (qid : Nat) (domain : String)
    (qtype : Nat) (padding : Bool) : DNSQuery :=
  let q0 : DNSQuery :=
    { id := qid
      recursionDesired := true
      question := [{ name := dnsFqdn domain, qtype := qtype, qclass := 1 }]
      edns := none }
  if padding then
    let opt0 : OptRR := { udpSize := 4096, dnssecOK := true, options := [] }
    let q1 : DNSQuery := { q0 with edns := some opt0 }
    let remainder : Nat :=
      ((128 + (18446744073709551616 - (dnsMsgLen q1 + 4) % 18446744073709551616)) %
        18446744073709551616) % 128
    let padOpt : EDNS0Opt := { code := edns0PaddingCode, data := List.replicate remainder 0 }
    { q1 with edns := some { opt0 with options := opt0.options ++ [padOpt] } }
  else q0

/-- Decoder loop of dnsMiekgCodec.DecodeLookupHostResponse (dns.go lines
200 to 214): walk the answer section appending the address of each A
record when the query type is TypeA and of each AAAA record when the
query type is TypeAAAA; any other record type is skipped. -/
def dnsExtractAddrs (qtype : Nat) (answer : List DNSRR) : List String :=
  answer.foldl
    (fun addrs rr =>
      if qtype = dnsTypeA then
        match rr with
        | .a ip => addrs ++ [ip]
        | _ => addrs
      else if qtype = dnsTypeAAAA then
        match rr with
        | .aaaa ip => addrs ++ [ip]
        | _ => addrs
      else addrs)
    []

/-- Result pair of a Go LookupHost-style call: the address list and the
error slot. -/
structure DNSLookupResult where
  addrs : List String
  err : Option Err
deriving DecidableEq, Repr

/-- dnsMiekgCodec.DecodeLookupHostResponse (dns.go lines 183 to 219).
The unpack parameter models miekg Msg.Unpack. After a successful parse
the response code is dispatched: RcodeNameError yields the no-such-host
error, RcodeServerFailure the temporary server-misbehaving error, any
other non-success code the generic server-misbehaving error; on success
the matching answer records are extracted and an empty extraction yields
the no-answer error. -/
def dnsMiekgCodec.decodeLookupHostResponse
    (unpack : List Nat → Except Err DNSMsg) (qtype : Nat)
    (data : List Nat) : DNSLookupResult :=
  match unpack data with
  | .error e => { addrs := [], err := some e }
  | .ok reply =>
    if reply.rcode = rcodeNameError then
      { addrs := [], err := some .errDNSNoSuchHost }
    else if reply.rcode = rcodeServerFailure then
      { addrs := [], err := some .errDNSServerTemporarilyMisbehaving }
    else if reply.rcode = rcodeSuccess then
      let addrs := dnsExtractAddrs qtype reply.answer
      if addrs.length ≤ 0 then
        { addrs := [], err := some .errDNSNoAnswerFromDNSServer }
      else { addrs := addrs, err := none }
    else { addrs := [], err := some .errDNSServerMisbehaving }

/-- Specification-side record matcher used to state the extraction
property: the record payload when the record type matches the requested
query type. -/
def dnsRRMatch (qtype : Nat) (rr : DNSRR) : Option String :=
  if qtype = dnsTypeA then
    match rr with
    | .a ip => some ip
    | _ => none
  else if qtype = dnsTypeAAAA then
    match rr with
    | .aaaa ip => some ip
    | _ => none
  else none

lemma foldl_filterMap_step {α β : Type} (f : α → Option β) (l : List α) :
    ∀ acc : List β,
      l.foldl (fun acc x => acc ++ (f x).toList) acc = acc ++ l.filterMap f := by
  induction l with
  | nil => intro acc; simp
  | cons x rest ih =>
    intro acc
    simp only [List.foldl_cons, List.filterMap_cons]
    cases hfx : f x <;> simp [hfx, ih]

lemma dnsExtractAddrs_eq_filterMap (qtype : Nat) (answer : List DNSRR) :
    dnsExtractAddrs qtype answer = answer.filterMap (dnsRRMatch qtype) := by
  have hstep :
      (fun (addrs : List String) (rr : DNSRR) =>
        if qtype = dnsTypeA then
          match rr with
          | .a ip => addrs ++ [ip]
          | _ => addrs
        else if qtype = dnsTypeAAAA then
          match rr with
          | .aaaa ip => addrs ++ [ip]
          | _ => addrs
        else addrs) =
      (fun (addrs : List String) (rr : DNSRR) =>
        addrs ++ (dnsRRMatch qtype rr).toList) := by
    funext addrs rr
    by_cases hA : qtype = dnsTypeA
    · cases rr <;> simp [hA, dnsRRMatch, dnsTypeA, dnsTypeAAAA]
    · by_cases hAAAA : qtype = dnsTypeAAAA
      · cases rr <;> simp [hA, hAAAA, dnsRRMatch, dnsTypeA, dnsTypeAAAA]
      · cases rr <;> simp [hA, hAAAA, dnsRRMatch]
  rw [dnsExtractAddrs, hstep]
  simpa using foldl_filterMap_step (dnsRRMatch qtype) answer []

/-- Transport round trip (the dnsTransport interface of dns.go): a
function from query bytes and a transport state to a reply-or-error and
a successor state. The state parameter makes the order of round trips
observable, which is how the sequencing of the two queries of the dual
lookup is settled. -/
def DNSTransport (sigma : Type) : Type :=
  List Nat → sigma → Except Err (List Nat) × sigma

/-- Outcome of a lookup through the generic resolver: the Go result
pair, the list of wire queries handed to the transport (in order), and
the final transport state. -/
structure LookupOutcome (sigma : Type) where
  res : DNSLookupResult
  queries : List (List Nat)
  state : sigma

/-- dnsMiekgCodec.EncodeLookupHostRequest (dns.go lines 116 to 153):
build the query message and serialize it with the pack parameter, which
models miekg Msg.Pack. -/
def dnsMiekgCodec.encodeLookupHostRequest
    (pack : DNSQuery → Except Err (List Nat)) (qid : Nat) (domain : String)
    (qtype : Nat) (padding : Bool) : Except Err (List Nat) :=
  pack (dnsMiekgCodec.mkLookupHostQuery qid domain qtype padding)

/-- dnsGenericResolver.doLookupHost (dns.go lines 379 to 392): encode
the request, run the transport round trip, decode the reply; the first
failing stage short-circuits with a nil address list. -/
def dnsGenericResolver.doLookupHost {sigma : Type}
    (pack : DNSQuery → Except Err (List Nat))
    (unpack : List Nat → Except Err DNSMsg) (t : DNSTransport sigma)
    (qid : Nat) (hostname : String) (qtype : Nat) (padding : Bool)
    (s : sigma) : LookupOutcome sigma :=
  match dnsMiekgCodec.encodeLookupHostRequest pack qid hostname qtype padding with
  | .error e => { res := { addrs := [], err := some e }, queries := [], state := s }
  | .ok query =>
    match t query s with
    | (.error e, s1) =>
      { res := { addrs := [], err := some e }, queries := [query], state := s1 }
    | (.ok reply, s1) =>
      { res := dnsMiekgCodec.decodeLookupHostResponse unpack qtype reply
        queries := [query], state := s1 }

/-- Merge step of dnsGenericResolver.LookupHost (dns.go lines 357 to
368): when both replies carry an error the A reply error is returned
with a nil address list; otherwise the address lists are concatenated,
A first, and an empty concatenation is reported as the no-answer
error. -/
def dnsGenericResolver.merge (replyA replyAAAA : DNSLookupResult) : DNSLookupResult :=
  if replyA.err.isSome && replyAAAA.err.isSome then
    { addrs := [], err := replyA.err }
  else
    let addrs := replyA.addrs ++ replyAAAA.addrs
    if addrs.length < 1 then
      { addrs := [], err := some .errDNSNoAnswerFromDNSServer }
    else { addrs := addrs, err := none }

/-- dnsGenericResolver.LookupHost (dns.go lines 347 to 369). The Go code
launches a goroutine for the A query, receives its result from an
unbuffered channel, only then launches the goroutine for the AAAA query
and receives its result, and finally merges; the channel receive before
the second launch makes the composition sequential, which the state
threading here records. -/
def dnsGenericResolver.lookupHost {sigma : Type}
    (pack : DNSQuery → Except Err (List Nat))
    (unpack : List Nat → Except Err DNSMsg) (t : DNSTransport sigma)
    (qid : Nat) (padding : Bool) (hostname : String) (s : sigma) :
    LookupOutcome sigma :=
  let outA := dnsGenericResolver.doLookupHost pack unpack t qid hostname dnsTypeA padding s
  let outAAAA :=
    dnsGenericResolver.doLookupHost pack unpack t qid hostname dnsTypeAAAA padding outA.state
  { res := dnsGenericResolver.merge outA.res outAAAA.res
    queries := outA.queries ++ outAAAA.queries
    state := outAAAA.state }

/-- Modelled from the spec: the dual-query resolver issues the A query
and the AAAA query as two independent parallel tasks against the same
transport, so each task runs against the transport as it was when the
tasks were launched, then both results are merged. This definition
exists only to be compared with the sequential composition the source
actually performs. -/
def dnsGenericResolver.lookupHostSpecParallel {sigma : Type}
    (pack : DNSQuery → Except Err (List Nat))
    (unpack : List Nat → Except Err DNSMsg) (t : DNSTransport sigma)
    (qid : Nat) (padding : Bool) (hostname : String) (s : sigma) :
    DNSLookupResult × List (List Nat) :=
  let outA := dnsGenericResolver.doLookupHost pack unpack t qid hostname dnsTypeA padding s
  let outAAAA :=
    dnsGenericResolver.doLookupHost pack unpack t qid hostname dnsTypeAAAA padding s
  (dnsGenericResolver.merge outA.res outAAAA.res, outA.queries ++ outAAAA.queries)

lemma decodeLookupHostResponse_err_addrs
    (unpack : List Nat → Except Err DNSMsg) (qtype : Nat) (data : List Nat) :
    (dnsMiekgCodec.decodeLookupHostResponse unpack qtype data).err.isSome = true →
    (dnsMiekgCodec.decodeLookupHostResponse unpack qtype data).addrs = [] := by
  unfold dnsMiekgCodec.decodeLookupHostResponse
  cases unpack data with
  | error e => intro _; rfl
  | ok reply =>
    by_cases h3 : reply.rcode = rcodeNameError
    · simp [h3, rcodeNameError, rcodeServerFailure, rcodeSuccess]
    · by_cases h2 : reply.rcode = rcodeServerFailure
      · simp [h3, h2, rcodeNameError, rcodeServerFailure, rcodeSuccess]
      · by_cases h0 : reply.rcode = rcodeSuccess
        · by_cases hlen : (dnsExtractAddrs qtype reply.answer).length ≤ 0
          · simp [h3, h2, h0, hlen, rcodeNameError, rcodeServerFailure, rcodeSuccess]
          · simp [h3, h2, h0, hlen, rcodeNameError, rcodeServerFailure, rcodeSuccess]
        · simp [h3, h2, h0]

lemma doLookupHost_err_addrs {sigma : Type}
    (pack : DNSQuery → Except Err (List Nat))
    (unpack : List Nat → Except Err DNSMsg) (t : DNSTransport sigma)
    (qid : Nat) (hostname : String) (qtype : Nat) (padding : Bool) (s : sigma) :
    (dnsGenericResolver.doLookupHost pack unpack t qid hostname qtype padding s).res.err.isSome =
      true →
    (dnsGenericResolver.doLookupHost pack unpack t qid hostname qtype padding s).res.addrs =
      [] := by
  unfold dnsGenericResolver.doLookupHost
  rcases hp : dnsMiekgCodec.encodeLookupHostRequest pack qid hostname qtype padding with e | query
  · simp [hp]
  · rcases ht : t query s with ⟨r, s1⟩
    rcases r with e | reply
    · simp [hp, ht]
    · simp only [hp, ht]
      exact decodeLookupHostResponse_err_addrs unpack qtype reply

/-- Observable events of a lookup through the netxlite resolver chain:
the two Debugf lines the logging decorator emits around the delegated
call, and a marker a concrete underlying resolver can emit when it is
actually invoked. -/
inductive REvent where
  | debugStart (hostname : String)
  | debugDone (hostname : String) (addrs : List String) (err : Option Err)
  | lookup (hostname : String)
deriving DecidableEq, Repr

/-- Output of a netxlite resolver LookupHost call: the emitted events in
order, the address list and the error slot. -/
structure ResolverOutput where
  events : List REvent
  addrs : List String
  err : Option Err
deriving DecidableEq, Repr

/-- resolverIDNA.LookupHost (netxlite): convert the hostname to its
ASCII form first; a conversion failure returns immediately without
invoking the inner resolver; otherwise the inner resolver receives the
converted hostname. The toASCII parameter models idna.ToASCII of the
x/net library. -/
def resolverIDNA.lookupHost (toASCII : String → Except Err String)
    (inner : String → ResolverOutput) (hostname : String) : ResolverOutput :=
  match toASCII hostname with
  | .error e => { events := [], addrs := [], err := some e }
  | .ok host => inner host

/-- resolverLogger.LookupHost (netxlite): emit a start debug line,
delegate, then emit a completion debug line carrying either the error or
the addresses; on inner failure the addresses are nil. -/
def resolverLogger.lookupHost (inner : String → ResolverOutput)
    (hostname : String) : ResolverOutput :=
  let out := inner hostname
  match out.err with
  | some e =>
    { events := [REvent.debugStart hostname] ++ out.events ++
        [REvent.debugDone hostname [] (some e)]
      addrs := [], err := some e }
  | none =>
    { events := [REvent.debugStart hostname] ++ out.events ++
        [REvent.debugDone hostname out.addrs none]
      addrs := out.addrs, err := none }

/-- resolverShortCircuitIPAddr.LookupHost (netxlite): when the hostname
parses as a literal IP address, return it as the sole result without
delegating; otherwise delegate unchanged. The parseIP parameter models
net.ParseIP returning non-nil. -/
def resolverShortCircuitIPAddr.lookupHost (parseIP : String → Bool)
    (inner : String → ResolverOutput) (hostname : String) : ResolverOutput :=
  if parseIP hostname then { events := [], addrs := [hostname], err := none }
  else inner hostname

/-- resolverErrWrapper.LookupHost (netxlite): on inner failure, classify
the error and wrap it tagged with the resolve operation, dropping the
addresses; on success pass the result through untouched. The classify
parameter models classifyResolverError of the errorsx package. -/
def resolverErrWrapper.lookupHost (classify : Err → String)
    (inner : String → ResolverOutput) (hostname : String) : ResolverOutput :=
  let out := inner hostname
  match out.err with
  | some e =>
    { events := out.events, addrs := []
      err := some (.errWrapped (classify e) "resolve" e) }
  | none => { events := out.events, addrs := out.addrs, err := none }

/-- WrapResolver (netxlite) and the identical chain NewResolverSystem
builds: IDNA outermost, then logging, then the literal-IP short circuit,
then error wrapping immediately around the underlying resolver. -/
def WrapResolver (toASCII : String → Except Err String)
    (parseIP : String → Bool) (classify : Err → String)
    (inner : String → ResolverOutput) : String → ResolverOutput :=
  resolverIDNA.lookupHost toASCII
    (resolverLogger.lookupHost
      (resolverShortCircuitIPAddr.lookupHost parseIP
        (resolverErrWrapper.lookupHost classify inner)))

/-- nullResolver.LookupHost (netxlite): always fails with the
no-configured-resolver error. -/
def nullResolver.lookupHost (_hostname : String) : ResolverOutput :=
  { events := [], addrs := [], err := some .errNoResolver }

/-- Observable events of the DNS-over-TCP/TLS resolver: closing and
dialing connections (identified by Nat), setting and clearing the socket
deadline, and writing a framed query. -/
inductive TEvent where
  | connClose (c : Nat)
  | connDial (c : Nat)
  | setDeadline (c : Nat)
  | clearDeadline (c : Nat)
  | connWrite (c : Nat) (frame : List Nat)
deriving DecidableEq, Repr

/-- Mutable state of a dnsOverTCPTLSResolver: the persistent connection
slot, plus a counter indexing the dial oracle so that successive dials
can answer differently. -/
structure TcpState where
  conn : Option Nat
  dialCount : Nat
deriving DecidableEq, Repr

/-- Frame written by trySync (dns.go lines 648 to 650): a 2-byte
big-endian length prefix, each byte truncated as the Go byte conversion
does, followed by the query bytes. -/
def dnsTCPTLSFrame (query : List Nat) : List Nat :=
  ((query.length / 256) % 256) :: (query.length % 256) :: query

/-- Test for the redial hint, modelling errors.As with a target of type
pointer-to-errDNSOverTCPTLSRedial: the wrapper chain is unwrapped until
the hint is found or the chain ends. -/
def isRedialHint : Err → Bool
  | .errDNSOverTCPTLSRedial _ => true
  | .errWrapped _ _ e => isRedialHint e
  | _ => false

/-- dnsOverTCPTLSResolver.trySync (dns.go lines 640 to 665): reject
queries longer than 65535 bytes before touching the socket; otherwise
set the deadline, write the length-prefixed frame (a write failure is
wrapped as a redial hint), read the 2-byte reply header, then read the
announced number of reply bytes; the deferred deadline clear runs on
every path after the length check. The wr, rdHeader and rdBody
parameters model the connection I/O. -/
def dnsOverTCPTLSResolver.trySync (wr : Nat → List Nat → Option Err)
    (rdHeader : Nat → Except Err (Nat × Nat))
    (rdBody : Nat → Nat → Except Err (List Nat)) (c : Nat)
    (query : List Nat) : Except Err (List Nat) × List TEvent :=
  if query.length > 65535 then
    (.error .errDNSOverTCPTLSQueryTooLong, [])
  else
    let frame := dnsTCPTLSFrame query
    match wr c frame with
    | some e =>
      (.error (.errDNSOverTCPTLSRedial e),
       [.setDeadline c, .connWrite c frame, .clearDeadline c])
    | none =>
      match rdHeader c with
      | .error e => (.error e, [.setDeadline c, .connWrite c frame, .clearDeadline c])
      | .ok (b0, b1) =>
        match rdBody c (b0 * 256 + b1) with
        | .error e => (.error e, [.setDeadline c, .connWrite c frame, .clearDeadline c])
        | .ok reply => (.ok reply, [.setDeadline c, .connWrite c frame, .clearDeadline c])

/-- dnsOverTCPTLSResolver.forceDial (dns.go lines 589 to 600): close and
drop any current connection, then dial; on success the new connection is
installed. The dial parameter models DialTLSContext, indexed by how many
dials happened before. -/
def dnsOverTCPTLSResolver.forceDial (dial : Nat → Except Err Nat)
    (st : TcpState) : Except Err Nat × TcpState × List TEvent :=
  let closeEv : List TEvent :=
    match st.conn with
    | some c => [.connClose c]
    | none => []
  match dial st.dialCount with
  | .error e => (.error e, { conn := none, dialCount := st.dialCount + 1 }, closeEv)
  | .ok c =>
    (.ok c, { conn := some c, dialCount := st.dialCount + 1 }, closeEv ++ [.connDial c])

/-- dnsOverTCPTLSResolver.maybeDial (dns.go lines 580 to 585): dial only
when there is no current connection. -/
def dnsOverTCPTLSResolver.maybeDial (dial : Nat → Except Err Nat)
    (st : TcpState) : Except Err Nat × TcpState × List TEvent :=
  match st.conn with
  | some c => (.ok c, st, [])
  | none => dnsOverTCPTLSResolver.forceDial dial st

/-- dnsOverTCPTLSResolver.do (dns.go lines 559 to 576): ensure a
connection, try the query; on success return the reply; when the failure
is not a redial hint surface it unchanged; on a redial hint force a new
connection and try the same query exactly once more, surfacing whatever
that second attempt returns. -/
def dnsOverTCPTLSResolver.doRoundTrip (dial : Nat → Except Err Nat)
    (wr : Nat → List Nat → Option Err) (rdHeader : Nat → Except Err (Nat × Nat))
    (rdBody : Nat → Nat → Except Err (List Nat)) (query : List Nat)
    (st : TcpState) : Except Err (List Nat) × TcpState × List TEvent :=
  match dnsOverTCPTLSResolver.maybeDial dial st with
  | (.error e, st1, ev1) => (.error e, st1, ev1)
  | (.ok c, st1, ev1) =>
    let first := dnsOverTCPTLSResolver.trySync wr rdHeader rdBody c query
    match first.1 with
    | .ok reply => (.ok reply, st1, ev1 ++ first.2)
    | .error e =>
      if isRedialHint e then
        match dnsOverTCPTLSResolver.forceDial dial st1 with
        | (.error e2, st2, ev3) => (.error e2, st2, ev1 ++ first.2 ++ ev3)
        | (.ok c2, st2, ev3) =>
          let second := dnsOverTCPTLSResolver.trySync wr rdHeader rdBody c2 query
          (second.1, st2, ev1 ++ first.2 ++ ev3 ++ second.2)
      else (.error e, st1, ev1 ++ first.2)

/-- dnsOverTCPTLSResolver.rtriplocked (dns.go lines 534 to 548): a nil
query is the sentinel of CloseIdleConnections; it closes and clears the
connection only when no other goroutine is waiting for the lock (the
users counter is zero) and a connection exists, and returns nil reply
and nil error; a real query goes to the do path. -/
def dnsOverTCPTLSResolver.rtriplocked (dial : Nat → Except Err Nat)
    (wr : Nat → List Nat → Option Err) (rdHeader : Nat → Except Err (Nat × Nat))
    (rdBody : Nat → Nat → Except Err (List Nat)) (users : Nat)
    (query : Option (List Nat)) (st : TcpState) :
    Except Err (List Nat) × TcpState × List TEvent :=
  match query with
  | none =>
    if users = 0 then
      match st.conn with
      | some c => (.ok [], { conn := none, dialCount := st.dialCount }, [.connClose c])
      | none => (.ok [], st, [])
    else (.ok [], st, [])
  | some q => dnsOverTCPTLSResolver.doRoundTrip dial wr rdHeader rdBody q st

/-- dnsOverTCPTLSResolver.roundTrip (dns.go lines 523 to 531): take the
lock and run the locked round trip; the users argument is the number of
other callers waiting for the lock while this call holds it. -/
def dnsOverTCPTLSResolver.roundTrip (dial : Nat → Except Err Nat)
    (wr : Nat → List Nat → Option Err) (rdHeader : Nat → Except Err (Nat × Nat))
    (rdBody : Nat → Nat → Except Err (List Nat)) (users : Nat)
    (query : Option (List Nat)) (st : TcpState) :
    Except Err (List Nat) × TcpState × List TEvent :=
  dnsOverTCPTLSResolver.rtriplocked dial wr rdHeader rdBody users query st

/-- dnsOverTCPTLSResolver.CloseIdleConnections (dns.go lines 669 to
671): a round trip with the nil sentinel query. -/
def dnsOverTCPTLSResolver.closeIdleConnections (dial : Nat → Except Err Nat)
    (wr : Nat → List Nat → Option Err) (rdHeader : Nat → Except Err (Nat × Nat))
    (rdBody : Nat → Nat → Except Err (List Nat)) (users : Nat)
    (st : TcpState) : Except Err (List Nat) × TcpState × List TEvent :=
  dnsOverTCPTLSResolver.roundTrip dial wr rdHeader rdBody users none st

/-- C3: for every domain name and query type, when padding is requested,
the encoded query built by EncodeLookupHostRequest has a total wire
length that is an exact multiple of 128 octets, the padding being
carried by a single EDNS0 padding option, and the query advertises a
4096-byte maximum UDP payload with the DNSSEC-OK bit enabled. -/
theorem encodeLookupHostRequest_pads_to_128 (qid : Nat) (domain : String)
    (qtype : Nat) :
    dnsMsgLen (dnsMiekgCodec.mkLookupHostQuery qid domain qtype true) % 128 = 0 ∧
    ∃ r : Nat,
      (dnsMiekgCodec.mkLookupHostQuery qid domain qtype true).edns =
        some { udpSize := 4096, dnssecOK := true
               options := [{ code := edns0PaddingCode, data := List.replicate r 0 }] } := by
  unfold dnsMiekgCodec.mkLookupHostQuery
  simp only [if_true]
  constructor
  · simp only [dnsMsgLen, List.map_cons, List.map_nil, List.sum_cons, List.sum_nil,
      List.length_replicate, List.nil_append]
    generalize dnsNameWireLen (dnsFqdn domain) = n
    omega
  · exact ⟨_, rfl⟩

/-- C2: for every wire reply that parses as a DNS message,
DecodeLookupHostResponse returns the no-such-host error on a name-error
response code, the temporary server-misbehaving error on server-failure,
the generic server-misbehaving error on any other non-success response
code; on a success response code it returns exactly the answer records
whose type matches the requested query type, in reply order, silently
skipping mismatched record types, and the no-answer error when no
matching record is extracted. -/
theorem decodeLookupHostResponse_dispatch
    (unpack : List Nat → Except Err DNSMsg) (qtype : Nat) (data : List Nat)
    (reply : DNSMsg) (hparse : unpack data = .ok reply) :
    dnsMiekgCodec.decodeLookupHostResponse unpack qtype data =
      (if reply.rcode = rcodeNameError then
        { addrs := [], err := some .errDNSNoSuchHost }
      else if reply.rcode = rcodeServerFailure then
        { addrs := [], err := some .errDNSServerTemporarilyMisbehaving }
      else if reply.rcode = rcodeSuccess then
        (let addrs := reply.answer.filterMap (dnsRRMatch qtype)
         if addrs = [] then { addrs := [], err := some .errDNSNoAnswerFromDNSServer }
         else { addrs := addrs, err := none })
      else { addrs := [], err := some .errDNSServerMisbehaving }) := by
  unfold dnsMiekgCodec.decodeLookupHostResponse
  rw [hparse]
  by_cases h3 : reply.rcode = rcodeNameError
  · simp [h3]
  · by_cases h2 : reply.rcode = rcodeServerFailure
    · simp [h3, h2]
    · by_cases h0 : reply.rcode = rcodeSuccess
      · simp only [h3, h2, h0, if_false, if_true, dnsExtractAddrs_eq_filterMap]
        by_cases hlen : reply.answer.filterMap (dnsRRMatch qtype) = []
        · simp [hlen]
        · simp [hlen, List.length_pos_iff_ne_nil.mpr hlen]
      · simp [h3, h2, h0]

/-- Witness for C2 at a concrete reply: a success response with one A
record, one AAAA record and one other record, queried with TypeA,
decodes to exactly the A address. -/
theorem decodeLookupHostResponse_dispatch_witness :
    dnsMiekgCodec.decodeLookupHostResponse
      (fun _ => .ok { rcode := 0, answer := [.a "93.184.216.34", .aaaa "2a::1", .other] })
      1 [] = { addrs := ["93.184.216.34"], err := none } := by
  rw [decodeLookupHostResponse_dispatch
    (fun _ => .ok { rcode := 0, answer := [.a "93.184.216.34", .aaaa "2a::1", .other] })
    1 [] { rcode := 0, answer := [.a "93.184.216.34", .aaaa "2a::1", .other] } rfl]
  decide

/-- C1: merge policy of the dual-query resolver, for every hostname and
transport (and every pack and unpack behaviour of the codec library):
when both queries fail the A-query error is returned, never the AAAA
one; a failed query contributes no addresses, so otherwise the result is
exactly the concatenation of the successful queries' addresses with the
A addresses first, nothing dropped or duplicated; and when that
concatenation is empty even though not both queries failed, the
no-answer defensive error is returned. -/
theorem lookupHost_merge_policy (sigma : Type)
    (pack : DNSQuery → Except Err (List Nat))
    (unpack : List Nat → Except Err DNSMsg) (t : DNSTransport sigma)
    (qid : Nat) (padding : Bool) (hostname : String) (s : sigma) :
    let outA := dnsGenericResolver.doLookupHost pack unpack t qid hostname dnsTypeA padding s
    let outAAAA :=
      dnsGenericResolver.doLookupHost pack unpack t qid hostname dnsTypeAAAA padding outA.state
    let out := dnsGenericResolver.lookupHost pack unpack t qid padding hostname s
    (∀ eA : Err, outA.res.err = some eA → outAAAA.res.err.isSome = true →
       out.res = { addrs := [], err := some eA }) ∧
    (outA.res.err.isSome = true → outA.res.addrs = []) ∧
    (outAAAA.res.err.isSome = true → outAAAA.res.addrs = []) ∧
    ((outA.res.err.isSome && outAAAA.res.err.isSome) = false →
      (outA.res.addrs ++ outAAAA.res.addrs = [] →
        out.res = { addrs := [], err := some .errDNSNoAnswerFromDNSServer }) ∧
      (outA.res.addrs ++ outAAAA.res.addrs ≠ [] →
        out.res = { addrs := outA.res.addrs ++ outAAAA.res.addrs, err := none })) := by
  intro outA outAAAA out
  have hout : out.res = dnsGenericResolver.merge outA.res outAAAA.res := rfl
  refine ⟨?_, ?_, ?_, ?_⟩
  · intro eA hA hAAAA
    rw [hout]
    unfold dnsGenericResolver.merge
    simp [hA, hAAAA]
  · exact doLookupHost_err_addrs pack unpack t qid hostname dnsTypeA padding s
  · exact doLookupHost_err_addrs pack unpack t qid hostname dnsTypeAAAA padding outA.state
  · intro hboth
    constructor
    · intro hnil
      rw [hout]
      unfold dnsGenericResolver.merge
      simp [hboth, hnil]
    · intro hnonnil
      rw [hout]
      unfold dnsGenericResolver.merge
      have hlen : ¬ (outA.res.addrs ++ outAAAA.res.addrs).length < 1 := by
        have := List.length_pos_iff_ne_nil.mpr hnonnil
        omega
      simp only [hboth, Bool.false_eq_true, if_false]
      rw [if_neg hlen]

/-- Witness for C1 at a concrete instance where both queries fail: the
A-query error is surfaced. -/
theorem lookupHost_merge_policy_witness :
    (dnsGenericResolver.lookupHost (fun _ => .error (.errExternal 0))
      (fun _ => .error (.errExternal 1))
      (fun _ (s : Unit) => (.error (.errExternal 2), s)) 7 true "example.com"
      ()).res = { addrs := [], err := some (.errExternal 0) } :=
  (lookupHost_merge_policy Unit (fun _ => .error (.errExternal 0))
    (fun _ => .error (.errExternal 1))
    (fun _ (s : Unit) => (.error (.errExternal 2), s)) 7 true "example.com"
    ()).1 (.errExternal 0) (by decide) (by decide)

/-- Counterexample for C8: a transport whose replies depend on how many
round trips were already performed distinguishes the sequential
composition the source performs from the independent parallel launch the
spec describes. Under the source, the AAAA round trip observes the
transport state left by the completed A round trip and the lookup
returns the AAAA address of the second reply; under the parallel model
of the spec both tasks observe the launch-time state and the lookup
returns the AAAA address of the first reply. -/
theorem lookupHost_not_parallel_counterexample :
    (dnsGenericResolver.lookupHost (fun _ => .ok [])
      (fun data =>
        .ok (if data = [0] then { rcode := 0, answer := [.a "a1", .aaaa "a2"] }
             else { rcode := 0, answer := [.a "b1", .aaaa "b2"] }))
      (fun _ (n : Nat) => (.ok [n], n + 1)) 0 true "example.org" 0).res ≠
    (dnsGenericResolver.lookupHostSpecParallel (fun _ => .ok [])
      (fun data =>
        .ok (if data = [0] then { rcode := 0, answer := [.a "a1", .aaaa "a2"] }
             else { rcode := 0, answer := [.a "b1", .aaaa "b2"] }))
      (fun _ (n : Nat) => (.ok [n], n + 1)) 0 true "example.org" 0).1 := by
  decide

/-- C8 as amended: the dual-query resolver issues the A query and the
AAAA query as two tasks against the same transport, but sequentially:
the AAAA task is launched only after the result of the A task has been
received, so the AAAA round trip runs against the transport state left
by the A round trip; a failure of the A query does not prevent the AAAA
query, and both results are awaited and merged. -/
theorem lookupHost_sequential_both_queries (sigma : Type)
    (pack : DNSQuery → Except Err (List Nat))
    (unpack : List Nat → Except Err DNSMsg) (t : DNSTransport sigma)
    (qid : Nat) (padding : Bool) (hostname : String) (s : sigma) :
    let outA := dnsGenericResolver.doLookupHost pack unpack t qid hostname dnsTypeA padding s
    let outAAAA :=
      dnsGenericResolver.doLookupHost pack unpack t qid hostname dnsTypeAAAA padding outA.state
    let out := dnsGenericResolver.lookupHost pack unpack t qid padding hostname s
    out.queries = outA.queries ++ outAAAA.queries ∧
    out.state = outAAAA.state ∧
    out.res = dnsGenericResolver.merge outA.res outAAAA.res ∧
    (∀ q : List Nat,
      pack (dnsMiekgCodec.mkLookupHostQuery qid hostname dnsTypeAAAA padding) = .ok q →
      q ∈ out.queries) := by
  intro outA outAAAA out
  refine ⟨rfl, rfl, rfl, ?_⟩
  intro q hq
  have hmem : q ∈ outAAAA.queries := by
    show q ∈ (dnsGenericResolver.doLookupHost pack unpack t qid hostname dnsTypeAAAA padding
      outA.state).queries
    unfold dnsGenericResolver.doLookupHost dnsMiekgCodec.encodeLookupHostRequest
    rw [hq]
    cases ht : t q outA.state with
    | mk r s1 => cases r <;> simp [ht]
  show q ∈ outA.queries ++ outAAAA.queries
  exact List.mem_append_right _ hmem

/-- Witness for C8 as amended: with a transport that fails every round
trip, the AAAA query is still issued after the A query failed. -/
theorem lookupHost_sequential_both_queries_witness :
    [5] ∈ (dnsGenericResolver.lookupHost (fun _ => .ok [5])
      (fun _ => .error (.errExternal 1))
      (fun _ (n : Nat) => (.error (.errExternal 9), n + 1)) 3 true "x" 0).queries :=
  (lookupHost_sequential_both_queries Nat (fun _ => .ok [5])
    (fun _ => .error (.errExternal 1))
    (fun _ (n : Nat) => (.error (.errExternal 9), n + 1)) 3 true "x" 0).2.2.2 [5] rfl

/-- C4: fixed decorator order of the chain built by NewResolverSystem
and WrapResolver, for every IDNA, ParseIP and classifier behaviour and
every inner resolver: IDNA normalization is applied first to the raw
input and its failure returns before anything else runs; the logging
decorator emits its lines with the ASCII-normalized hostname; the
literal-IP short circuit is checked next, inside the logger; and the
error wrapper runs innermost, immediately around the result of the
concrete resolver. -/
theorem wrapResolver_decorator_order (toASCII : String → Except Err String)
    (parseIP : String → Bool) (classify : Err → String)
    (inner : String → ResolverOutput) (hostname : String) :
    WrapResolver toASCII parseIP classify inner hostname =
      (match toASCII hostname with
       | .error e => { events := [], addrs := [], err := some e }
       | .ok host =>
         if parseIP host then
           { events := [.debugStart host, .debugDone host [host] none]
             addrs := [host], err := none }
         else
           match (inner host).err with
           | none =>
             { events := [REvent.debugStart host] ++ (inner host).events ++
                 [REvent.debugDone host (inner host).addrs none]
               addrs := (inner host).addrs, err := none }
           | some e =>
             { events := [REvent.debugStart host] ++ (inner host).events ++
                 [REvent.debugDone host []
                   (some (.errWrapped (classify e) "resolve" e))]
               addrs := []
               err := some (.errWrapped (classify e) "resolve" e) }) := by
  unfold WrapResolver resolverIDNA.lookupHost resolverLogger.lookupHost
    resolverShortCircuitIPAddr.lookupHost resolverErrWrapper.lookupHost
  cases toASCII hostname with
  | error e => rfl
  | ok host =>
    by_cases hip : parseIP host
    · simp [hip]
    · simp only [hip, if_false, Bool.false_eq_true]
      cases herr : (inner host).err <;> simp [herr]

/-- C5: for every string s that parses as a literal IP address (and is
left unchanged by IDNA conversion, which holds for ASCII IP literals),
LookupHost through the resolver chain returns exactly the one-element
address list holding s and no error; the right-hand side does not
mention the inner resolver, so the inner resolver is never invoked and
no network access happens. -/
theorem wrapResolver_shortCircuits_ip (toASCII : String → Except Err String)
    (parseIP : String → Bool) (classify : Err → String)
    (inner : String → ResolverOutput) (s : String) (hascii : toASCII s = .ok s)
    (hip : parseIP s = true) :
    WrapResolver toASCII parseIP classify inner s =
      { events := [.debugStart s, .debugDone s [s] none], addrs := [s], err := none } := by
  unfold WrapResolver resolverIDNA.lookupHost resolverLogger.lookupHost
    resolverShortCircuitIPAddr.lookupHost resolverErrWrapper.lookupHost
  rw [hascii]
  simp [hip]

/-- Witness for C5 at a concrete literal IP address with a concrete
inner resolver that would fail if it were ever consulted. -/
theorem wrapResolver_shortCircuits_ip_witness :
    WrapResolver (fun x => .ok x) (fun x => x == "130.192.91.211")
      (fun _ => "unknown") (fun h => { events := [.lookup h], addrs := [], err := some .errNoResolver })
      "130.192.91.211" =
      { events := [.debugStart "130.192.91.211", .debugDone "130.192.91.211" ["130.192.91.211"] none]
        addrs := ["130.192.91.211"], err := none } :=
  wrapResolver_shortCircuits_ip (fun x => .ok x) (fun x => x == "130.192.91.211")
    (fun _ => "unknown")
    (fun h => { events := [.lookup h], addrs := [], err := some .errNoResolver })
    "130.192.91.211" rfl (by decide)

/-- C9: no resolver variant returns both a non-empty address list and a
non-nil error: this holds for the dual-query generic resolver over any
transport, for the whole WrapResolver chain over any inner resolver, for
the error-wrapping and logging decorators over any inner resolver, and
for the null resolver. -/
theorem lookupHost_never_addrs_with_error (sigma : Type)
    (pack : DNSQuery → Except Err (List Nat))
    (unpack : List Nat → Except Err DNSMsg) (t : DNSTransport sigma)
    (qid : Nat) (padding : Bool) (hostname : String) (s : sigma)
    (toASCII : String → Except Err String) (parseIP : String → Bool)
    (classify : Err → String) (inner : String → ResolverOutput)
    (host2 : String) :
    ((dnsGenericResolver.lookupHost pack unpack t qid padding hostname s).res.addrs = [] ∨
      (dnsGenericResolver.lookupHost pack unpack t qid padding hostname s).res.err = none) ∧
    ((WrapResolver toASCII parseIP classify inner host2).addrs = [] ∨
      (WrapResolver toASCII parseIP classify inner host2).err = none) ∧
    ((resolverErrWrapper.lookupHost classify inner host2).addrs = [] ∨
      (resolverErrWrapper.lookupHost classify inner host2).err = none) ∧
    ((resolverLogger.lookupHost inner host2).addrs = [] ∨
      (resolverLogger.lookupHost inner host2).err = none) ∧
    ((nullResolver.lookupHost host2).addrs = [] ∧
      (nullResolver.lookupHost host2).err = some .errNoResolver) := by
  refine ⟨?_, ?_, ?_, ?_, ⟨rfl, rfl⟩⟩
  · have hres : (dnsGenericResolver.lookupHost pack unpack t qid padding hostname s).res =
        dnsGenericResolver.merge
          (dnsGenericResolver.doLookupHost pack unpack t qid hostname dnsTypeA padding s).res
          (dnsGenericResolver.doLookupHost pack unpack t qid hostname dnsTypeAAAA padding
            (dnsGenericResolver.doLookupHost pack unpack t qid hostname dnsTypeA padding
              s).state).res := rfl
    rw [hres]
    unfold dnsGenericResolver.merge
    by_cases hboth :
        ((dnsGenericResolver.doLookupHost pack unpack t qid hostname dnsTypeA padding
            s).res.err.isSome &&
          (dnsGenericResolver.doLookupHost pack unpack t qid hostname dnsTypeAAAA padding
            (dnsGenericResolver.doLookupHost pack unpack t qid hostname dnsTypeA padding
              s).state).res.err.isSome) = true
    · simp [hboth]
    · simp only [hboth, if_false, Bool.false_eq_true]
      split
      · left; rfl
      · right; rfl
  · rw [wrapResolver_decorator_order]
    cases toASCII host2 with
    | error e => simp
    | ok host =>
      by_cases hip : parseIP host
      · simp [hip]
      · simp only [hip, if_false, Bool.false_eq_true]
        cases herr : (inner host).err <;> simp [herr]
  · unfold resolverErrWrapper.lookupHost
    cases herr : (inner host2).err <;> simp [herr]
  · unfold resolverLogger.lookupHost
    cases herr : (inner host2).err <;> simp [herr]

/-- C7: CloseIdleConnections on the TCP/TLS resolver closes and clears
the persistent connection exactly when the waiter counter is zero and a
connection exists; with waiters present, or without a connection, it
leaves the whole resolver state unchanged, emits no events, and returns
without error in every case. -/
theorem closeIdleConnections_advisory (dial : Nat → Except Err Nat)
    (wr : Nat → List Nat → Option Err) (rdHeader : Nat → Except Err (Nat × Nat))
    (rdBody : Nat → Nat → Except Err (List Nat)) (users : Nat) (st : TcpState) :
    (∀ c : Nat, users = 0 → st.conn = some c →
      dnsOverTCPTLSResolver.closeIdleConnections dial wr rdHeader rdBody users st =
        (.ok [], { conn := none, dialCount := st.dialCount }, [.connClose c])) ∧
    (users ≠ 0 →
      dnsOverTCPTLSResolver.closeIdleConnections dial wr rdHeader rdBody users st =
        (.ok [], st, [])) ∧
    (st.conn = none →
      dnsOverTCPTLSResolver.closeIdleConnections dial wr rdHeader rdBody users st =
        (.ok [], st, [])) := by
  unfold dnsOverTCPTLSResolver.closeIdleConnections dnsOverTCPTLSResolver.roundTrip
    dnsOverTCPTLSResolver.rtriplocked
  refine ⟨?_, ?_, ?_⟩
  · intro c hu hc
    simp [hu, hc]
  · intro hu
    simp [hu]
  · intro hc
    by_cases hu : users = 0
    · simp [hu, hc]
    · simp [hu]

/-- Witness for C7: with zero waiters and connection 3 installed, the
close really happens and the connection slot is cleared. -/
theorem closeIdleConnections_advisory_witness :
    dnsOverTCPTLSResolver.closeIdleConnections (fun _ => .error (.errExternal 0))
      (fun _ _ => none) (fun _ => .ok (0, 0)) (fun _ _ => .ok []) 0
      { conn := some 3, dialCount := 5 } =
      (.ok [], { conn := none, dialCount := 5 }, [.connClose 3]) :=
  (closeIdleConnections_advisory (fun _ => .error (.errExternal 0))
    (fun _ _ => none) (fun _ => .ok (0, 0)) (fun _ _ => .ok []) 0
    { conn := some 3, dialCount := 5 }).1 3 rfl rfl

/-- C10: a query longer than 65535 bytes makes trySync fail with the
dedicated query-too-long error before any deadline is set and before any
byte is written (no events at all, connection untouched); under the
precondition that the query is at most 65535 bytes the error branch is
unreachable, since the round trip is then exactly the deadline-write-read
pipeline determined by the connection oracles, and the 2-byte big-endian
length prefix of the written frame decodes back to the query length. -/
theorem trySync_queryTooLong_guard (wr : Nat → List Nat → Option Err)
    (rdHeader : Nat → Except Err (Nat × Nat))
    (rdBody : Nat → Nat → Except Err (List Nat)) (c : Nat) (query : List Nat) :
    (query.length > 65535 →
      dnsOverTCPTLSResolver.trySync wr rdHeader rdBody c query =
        (.error .errDNSOverTCPTLSQueryTooLong, [])) ∧
    (query.length ≤ 65535 →
      ((query.length / 256) % 256) * 256 + query.length % 256 = query.length ∧
      dnsOverTCPTLSResolver.trySync wr rdHeader rdBody c query =
        (match wr c (dnsTCPTLSFrame query) with
         | some e =>
           (.error (.errDNSOverTCPTLSRedial e),
            [.setDeadline c, .connWrite c (dnsTCPTLSFrame query), .clearDeadline c])
         | none =>
           match rdHeader c with
           | .error e =>
             (.error e,
              [.setDeadline c, .connWrite c (dnsTCPTLSFrame query), .clearDeadline c])
           | .ok (b0, b1) =>
             match rdBody c (b0 * 256 + b1) with
             | .error e =>
               (.error e,
                [.setDeadline c, .connWrite c (dnsTCPTLSFrame query), .clearDeadline c])
             | .ok reply =>
               (.ok reply,
                [.setDeadline c, .connWrite c (dnsTCPTLSFrame query), .clearDeadline c]))) := by
  constructor
  · intro hlong
    unfold dnsOverTCPTLSResolver.trySync
    rw [if_pos hlong]
  · intro hshort
    constructor
    · omega
    · unfold dnsOverTCPTLSResolver.trySync
      rw [if_neg (by omega)]

/-- Witness for C10 on the long side: a 65536-byte query is rejected
with the query-too-long error and no events. -/
theorem trySync_queryTooLong_guard_witness :
    dnsOverTCPTLSResolver.trySync (fun _ _ => none) (fun _ => .ok (0, 0))
      (fun _ _ => .ok []) 0 (List.replicate 65536 0) =
      (.error .errDNSOverTCPTLSQueryTooLong, []) :=
  (trySync_queryTooLong_guard (fun _ _ => none) (fun _ => .ok (0, 0))
    (fun _ _ => .ok []) 0 (List.replicate 65536 0)).1
    (by rw [List.length_replicate]; omega)

lemma doLookupHost_queries_le_one (sigma : Type)
    (pack : DNSQuery → Except Err (List Nat))
    (unpack : List Nat → Except Err DNSMsg) (t : DNSTransport sigma)
    (qid : Nat) (hostname : String) (qtype : Nat) (padding : Bool) (s : sigma) :
    (dnsGenericResolver.doLookupHost pack unpack t qid hostname qtype padding
      s).queries.length ≤ 1 := by
  unfold dnsGenericResolver.doLookupHost
  rcases hp : dnsMiekgCodec.encodeLookupHostRequest pack qid hostname qtype padding with e | q
  · simp [hp]
  · rcases ht : t q s with ⟨r, s1⟩
    rcases r with e | reply <;> simp [hp, ht]

/-- C6: the redial policy of the TCP/TLS transport. A round trip whose
connection write fails is tagged with the redial-hint wrapper; on a
redial hint, and only then, the resolver closes the old connection,
dials a fresh one and retries the same query exactly once more,
surfacing whatever the second attempt returns without further retry; an
error that is not a redial hint is surfaced unchanged with no close, no
dial and no second attempt; and the generic resolver performs at most
one round trip per query type, so no other operation retries. -/
theorem tcpTLS_redial_once_policy (dial : Nat → Except Err Nat)
    (wr : Nat → List Nat → Option Err) (rdHeader : Nat → Except Err (Nat × Nat))
    (rdBody : Nat → Nat → Except Err (List Nat)) (c : Nat) (query : List Nat)
    (st : TcpState) (e : Err) :
    (query.length ≤ 65535 → wr c (dnsTCPTLSFrame query) = some e →
      dnsOverTCPTLSResolver.trySync wr rdHeader rdBody c query =
        (.error (.errDNSOverTCPTLSRedial e),
         [.setDeadline c, .connWrite c (dnsTCPTLSFrame query), .clearDeadline c])) ∧
    (∀ ev : List TEvent, st.conn = some c →
      dnsOverTCPTLSResolver.trySync wr rdHeader rdBody c query = (.error e, ev) →
      isRedialHint e = false →
      dnsOverTCPTLSResolver.doRoundTrip dial wr rdHeader rdBody query st =
        (.error e, st, ev)) ∧
    (∀ ev : List TEvent, st.conn = some c →
      dnsOverTCPTLSResolver.trySync wr rdHeader rdBody c query = (.error e, ev) →
      isRedialHint e = true →
      dnsOverTCPTLSResolver.doRoundTrip dial wr rdHeader rdBody query st =
        (match dial st.dialCount with
         | .error e2 =>
           (.error e2, { conn := none, dialCount := st.dialCount + 1 },
            ev ++ [.connClose c])
         | .ok c2 =>
           ((dnsOverTCPTLSResolver.trySync wr rdHeader rdBody c2 query).1,
            { conn := some c2, dialCount := st.dialCount + 1 },
            ev ++ [.connClose c, .connDial c2] ++
              (dnsOverTCPTLSResolver.trySync wr rdHeader rdBody c2 query).2))) ∧
    (∀ (sigma : Type) (pack : DNSQuery → Except Err (List Nat))
      (unpack : List Nat → Except Err DNSMsg) (t : DNSTransport sigma)
      (qid : Nat) (hostname : String) (qtype : Nat) (padding : Bool) (s : sigma),
      (dnsGenericResolver.doLookupHost pack unpack t qid hostname qtype padding
        s).queries.length ≤ 1 ∧
      (dnsGenericResolver.lookupHost pack unpack t qid padding hostname
        s).queries.length ≤ 2) := by
  refine ⟨?_, ?_, ?_, ?_⟩
  · intro hlen hw
    unfold dnsOverTCPTLSResolver.trySync
    rw [if_neg (by omega)]
    simp only [hw]
  · intro ev hconn htry hred
    unfold dnsOverTCPTLSResolver.doRoundTrip dnsOverTCPTLSResolver.maybeDial
    simp only [hconn, htry, hred, Bool.false_eq_true, if_false, List.nil_append]
  · intro ev hconn htry hred
    unfold dnsOverTCPTLSResolver.doRoundTrip dnsOverTCPTLSResolver.maybeDial
      dnsOverTCPTLSResolver.forceDial
    simp only [hconn, htry, hred, if_true, List.nil_append]
    cases hd : dial st.dialCount with
    | error e2 => simp [hd]
    | ok c2 => simp [hd]
  · intro sigma pack unpack t qid hostname qtype padding s
    refine ⟨doLookupHost_queries_le_one sigma pack unpack t qid hostname qtype padding s, ?_⟩
    have hq : (dnsGenericResolver.lookupHost pack unpack t qid padding hostname s).queries =
        (dnsGenericResolver.doLookupHost pack unpack t qid hostname dnsTypeA padding
          s).queries ++
        (dnsGenericResolver.doLookupHost pack unpack t qid hostname dnsTypeAAAA padding
          (dnsGenericResolver.doLookupHost pack unpack t qid hostname dnsTypeA padding
            s).state).queries := rfl
    rw [hq, List.length_append]
    have h1 := doLookupHost_queries_le_one sigma pack unpack t qid hostname dnsTypeA padding s
    have h2 := doLookupHost_queries_le_one sigma pack unpack t qid hostname dnsTypeAAAA padding
      (dnsGenericResolver.doLookupHost pack unpack t qid hostname dnsTypeA padding s).state
    omega

/-- Witness for C6: a concrete failing write is tagged with the redial
hint around the write error. -/
theorem tcpTLS_redial_once_policy_witness :
    dnsOverTCPTLSResolver.trySync (fun _ _ => some (.errExternal 7))
      (fun _ => .ok (0, 0)) (fun _ _ => .ok []) 0 [1, 2] =
      (.error (.errDNSOverTCPTLSRedial (.errExternal 7)),
       [.setDeadline 0, .connWrite 0 (dnsTCPTLSFrame [1, 2]), .clearDeadline 0]) :=
  (tcpTLS_redial_once_policy (fun _ => .error (.errExternal 0))
    (fun _ _ => some (.errExternal 7)) (fun _ => .ok (0, 0)) (fun _ _ => .ok [])
    0 [1, 2] { conn := none, dialCount := 0 } (.errExternal 7)).1 (by decide) rfl
